import Mathlib

/-!
# Karl AI Ecosystem — shallow embedding and verification

Shallow embedding of the core subsystem of the Karl_AI_Ecosystem repository:
the in-memory TTL cache (`corehub/services/cache.py`), the alert manager
(`corehub/services/alerts.py`), the DevAgent poll loop with circuit breaker
(`agents/devagent/app/main.py`), and the DevAgent task pipeline
(`agents/devagent/app/executor.py`).

Python `datetime.utcnow()` is modelled as an explicit clock parameter
`now : Nat` (seconds).  Python dicts are modelled as association lists with
insertion order preserved (`alSet` replaces in place, `alErase` removes the
key), matching dict semantics for states reachable from the empty dict.
External effects (notification channels, git, the CoreHub HTTP client,
subprocess-based quality checks) are modelled as environment-supplied
outcomes or as recorded events, since they live outside this core.
-/

namespace KarlAI

/-! ## Association lists modelling Python dicts -/

/-- Lookup in a dict modelled as an association list (first match). -/
def alGet {β : Type} (l : List (String × β)) (k : String) : Option β :=
  match l with
  | [] => none
  | (k', v) :: rest => if k' = k then some v else alGet rest k

/-- Membership test, modelling `key in dict`. -/
def alContains {β : Type} (l : List (String × β)) (k : String) : Bool :=
  (alGet l k).isSome

/-- Dict assignment `d[k] = v`: replaces in place when the key is present,
otherwise appends (dicts preserve insertion order). -/
def alSet {β : Type} (l : List (String × β)) (k : String) (v : β) :
    List (String × β) :=
  match l with
  | [] => [(k, v)]
  | (k', v') :: rest =>
      if k' = k then (k, v) :: rest else (k', v') :: alSet rest k v

/-- Dict deletion `del d[k]`: removes every entry with that key (dicts
reachable from empty hold at most one). -/
def alErase {β : Type} (l : List (String × β)) (k : String) :
    List (String × β) :=
  l.filter (fun e => e.1 != k)

/-- The key list of a dict, in insertion order. -/
def alKeys {β : Type} (l : List (String × β)) : List String :=
  l.map (·.1)

/-! ## CacheService (`corehub/services/cache.py`) -/

/-- One cache entry: the dict stored by `CacheService.set`
(value, expires_at, created_at, ttl). -/
structure CacheEntry (α : Type) where
  value : α
  expires_at : Nat
  created_at : Nat
  ttl : Nat
  deriving Repr, DecidableEq

/-- The `self.stats` dict of `CacheService` (the `last_cleanup` timestamp is
kept on the service record below). -/
structure CacheStats where
  hits : Nat
  misses : Nat
  evictions : Nat
  size : Nat
  deriving Repr, DecidableEq

/-- State of a `CacheService` instance.  The value type `α` stands for the
Python `Any`. -/
structure CacheService (α : Type) where
  cache : List (String × CacheEntry α)
  default_ttl : Nat
  stats : CacheStats
  last_cleanup : Nat
  deriving Repr, DecidableEq

/-- `CacheService.__init__(default_ttl=300)` at clock `now`. -/
def CacheService.init (α : Type) (now : Nat) (default_ttl : Nat := 300) :
    CacheService α :=
  { cache := []
    default_ttl := default_ttl
    stats := { hits := 0, misses := 0, evictions := 0, size := 0 }
    last_cleanup := now }

/-- `CacheService.set(key, value, ttl)`: stores with absolute expiry
`now + ttl` (default TTL when `ttl is None`) and refreshes the size stat. -/
def CacheService.set {α : Type} (s : CacheService α) (now : Nat)
    (key : String) (value : α) (ttl : Option Nat := none) : CacheService α :=
  let actual_ttl := ttl.getD s.default_ttl
  let cache' := alSet s.cache key
    { value := value, expires_at := now + actual_ttl,
      created_at := now, ttl := actual_ttl }
  { s with cache := cache', stats := { s.stats with size := cache'.length } }

/-- `CacheService.delete(key)`: removes if present, refreshing the size
stat; returns whether the key was found. -/
def CacheService.delete {α : Type} (s : CacheService α) (key : String) :
    Bool × CacheService α :=
  if alContains s.cache key then
    let cache' := alErase s.cache key
    (true,
     { s with cache := cache',
              stats := { s.stats with size := cache'.length } })
  else
    (false, s)

/-- `CacheService.get(key)`: miss on absent key; on a present-but-expired
entry (`now > expires_at`) deletes it and counts one eviction and one miss;
otherwise counts a hit and returns the value. -/
def CacheService.get {α : Type} (s : CacheService α) (now : Nat)
    (key : String) : Option α × CacheService α :=
  match alGet s.cache key with
  | some entry =>
      if now > entry.expires_at then
        let s1 := (s.delete key).2
        (none,
         { s1 with stats := { s1.stats with
             evictions := s1.stats.evictions + 1,
             misses := s1.stats.misses + 1 } })
      else
        (some entry.value,
         { s with stats := { s.stats with hits := s.stats.hits + 1 } })
  | none =>
      (none,
       { s with stats := { s.stats with misses := s.stats.misses + 1 } })

/-- `CacheService.clear()`: empties the store and zeroes the size, hit,
miss and eviction counters. -/
def CacheService.clear {α : Type} (s : CacheService α) : CacheService α :=
  { s with cache := [],
           stats := { hits := 0, misses := 0, evictions := 0, size := 0 } }

/-- `CacheService.cleanup_expired()`: deletes every entry with
`now > expires_at`, counting one eviction per removal; returns the number
removed and stamps `last_cleanup`. -/
def CacheService.cleanup_expired {α : Type} (s : CacheService α)
    (now : Nat) : Nat × CacheService α :=
  let keys_to_delete :=
    (s.cache.filter (fun e => now > e.2.expires_at)).map (·.1)
  let r := keys_to_delete.foldl
    (fun (acc : Nat × CacheService α) k =>
      let st1 := (acc.2.delete k).2
      (acc.1 + 1,
       { st1 with stats := { st1.stats with
           evictions := st1.stats.evictions + 1 } }))
    (0, s)
  (r.1, { r.2 with last_cleanup := now })

/-- The dict returned by `CacheService.get_stats()` (the `hit_ratio`
fraction). -/
structure CacheStatsView where
  current_size : Nat
  hits : Nat
  misses : Nat
  evictions : Nat
  total_accesses : Nat
  hitRatio : Rat
  last_cleanup : Nat
  deriving Repr, DecidableEq

/-- `CacheService.get_stats()`: snapshot of the counters; the hit ratio is
`hits / (hits + misses)` and `0` when there has been no access. -/
def CacheService.get_stats {α : Type} (s : CacheService α) :
    CacheStatsView :=
  { current_size := s.stats.size
    hits := s.stats.hits
    misses := s.stats.misses
    evictions := s.stats.evictions
    total_accesses := s.stats.hits + s.stats.misses
    hitRatio :=
      if s.stats.hits + s.stats.misses > 0 then
        (s.stats.hits : Rat) / ((s.stats.hits : Rat) + (s.stats.misses : Rat))
      else 0
    last_cleanup := s.last_cleanup }

/-- Semantics of Python `re.match(pattern, key)` restricted to patterns
without regex metacharacters: `re.match` anchors at the start of the
string, so a literal pattern matches exactly when it is an initial segment
of the key. -/
def reMatchLit (pattern key : String) : Bool :=
  decide (List.IsPrefix pattern.toList key.toList)

/-- Semantics of Python `re.search(pattern, key)` restricted to patterns
without regex metacharacters: the pattern matches when it occurs anywhere
inside the key. -/
def reSearchLit (pattern key : String) : Bool :=
  decide (List.IsInfix pattern.toList key.toList)

/-- `CacheService.invalidate_pattern(pattern)`: collects the keys where
`re.match(pattern, key)` succeeds, deletes each, and returns how many. -/
def CacheService.invalidate_pattern {α : Type} (s : CacheService α)
    (pattern : String) : Nat × CacheService α :=
  let keys_to_delete := (alKeys s.cache).filter (fun k => reMatchLit pattern k)
  keys_to_delete.foldl
    (fun (acc : Nat × CacheService α) k => (acc.1 + 1, (acc.2.delete k).2))
    (0, s)

/-! ## The `cached` decorator (`corehub/services/cache.py`, lines 142-163)

The wrapper's stored values live in Python's `Any`, where the function
result may itself be `None`; the value type of the backing cache is
therefore `Option β`, with `Option.none` standing for Python `None`.
The wrapper state pairs the module-level `_cache_service` with a counter
of how many times the wrapped function body was actually executed. -/

/-- State threaded through calls of a `cached`-wrapped function: the
global `_cache_service` (values of type `Option β`, `none` = Python
`None`) plus the number of times the underlying function was computed. -/
structure CachedState (β : Type) where
  cache : CacheService (Option β)
  computeCount : Nat

/-- One call of a function wrapped by the `cached(ttl)` decorator.
`keyOf` stands for the `":".join([func.__name__] + stringified args)` key
derivation.  The Python guard `if result is not None` returns the cached
value only when the lookup produced a stored non-`None` value; a miss and
a stored `None` are indistinguishable and both recompute. -/
def cachedCall {γ β : Type} (f : γ → Option β) (keyOf : γ → String)
    (ttl : Option Nat) (now : Nat) (st : CachedState β) (x : γ) :
    Option β × CachedState β :=
  let cache_key := keyOf x
  let r := st.cache.get now cache_key
  match r.1 with
  | some (some v) => (some v, { st with cache := r.2 })
  | _ =>
      let result := f x
      let cache2 := r.2.set now cache_key result ttl
      (result, { cache := cache2, computeCount := st.computeCount + 1 })

/-! ## AlertManager (`corehub/services/alerts.py`) -/

/-- `AlertSeverity` enum. -/
inductive AlertSeverity
  | info
  | warning
  | critical
  | emergency
  deriving Repr, DecidableEq

/-- `AlertStatus` enum. -/
inductive AlertStatus
  | active
  | acknowledged
  | resolved
  | suppressed
  deriving Repr, DecidableEq

/-- The `Alert` dataclass.  `timestamp` carries the creation clock (the
source stores `datetime.utcnow().isoformat()`); `metadata` is a string
map. -/
structure Alert where
  id : String
  type : String
  severity : AlertSeverity
  status : AlertStatus
  title : String
  message : String
  timestamp : Nat
  source : String
  metadata : List (String × String)
  acknowledged_by : Option String := none
  acknowledged_at : Option Nat := none
  resolved_at : Option Nat := none
  deriving Repr, DecidableEq

/-- The `AlertRule` dataclass (fields used by the manager logic). -/
structure AlertRule where
  id : String
  name : String
  condition : String
  severity : AlertSeverity
  enabled : Bool
  cooldown_minutes : Nat
  notification_channels : List String
  deriving Repr, DecidableEq

/-- State of an `AlertManager`.  Notification channels perform network
I/O, so dispatch is modelled by recording, in order, the id of every alert
for which `_send_notifications` was invoked. -/
structure AlertManager where
  alerts : List (String × Alert)
  alert_rules : List (String × AlertRule)
  alert_history : List Alert
  cooldowns : List (String × Nat)
  dispatched : List String
  deriving Repr, DecidableEq

/-- `AlertManager.__init__` (channel auto-configuration reads environment
variables and only affects where notifications go, which the embedding
records abstractly in `dispatched`). -/
def AlertManager.init : AlertManager :=
  { alerts := [], alert_rules := [], alert_history := [],
    cooldowns := [], dispatched := [] }

/-- `AlertManager._is_in_cooldown(alert_type)`: true when a cooldown
timestamp is recorded for the type and `now` is still before it. -/
def AlertManager.is_in_cooldown (m : AlertManager) (now : Nat)
    (alert_type : String) : Bool :=
  match alGet m.cooldowns alert_type with
  | none => false
  | some until_ => now < until_

/-- `AlertManager._set_cooldown(alert_type)`: cooldown ends
`cooldown_minutes` minutes from now, taken from the registered rule for
the type or defaulting to 5 minutes. -/
def AlertManager.set_cooldown (m : AlertManager) (now : Nat)
    (alert_type : String) : AlertManager :=
  let cooldown_minutes :=
    match alGet m.alert_rules alert_type with
    | some rule => rule.cooldown_minutes
    | none => 5
  { m with cooldowns :=
      alSet m.cooldowns alert_type (now + cooldown_minutes * 60) }

/-- `AlertManager.create_alert`: builds the `Alert` with id
`f"{alert_type}_{int(timestamp)}"` and status `active`.  When the type is
in cooldown the function returns the alert immediately — it is neither
stored in `self.alerts` nor appended to `self.alert_history`, and no
notification is sent.  Otherwise it is stored, appended to history,
notifications are dispatched, and the cooldown is set. -/
def AlertManager.create_alert (m : AlertManager) (now : Nat)
    (alert_type : String) (severity : AlertSeverity)
    (title message source : String)
    (metadata : Option (List (String × String)) := none) :
    Alert × AlertManager :=
  let alert_id := alert_type ++ "_" ++ toString now
  let alert : Alert :=
    { id := alert_id, type := alert_type, severity := severity,
      status := AlertStatus.active, title := title, message := message,
      timestamp := now, source := source, metadata := metadata.getD [] }
  if m.is_in_cooldown now alert_type then
    (alert, m)
  else
    let m1 := { m with alerts := alSet m.alerts alert_id alert,
                       alert_history := m.alert_history ++ [alert] }
    let m2 := { m1 with dispatched := m1.dispatched ++ [alert_id] }
    let m3 := m2.set_cooldown now alert_type
    (alert, m3)

/-- `AlertManager.acknowledge_alert(alert_id, acknowledged_by)`: false on
an unknown id; otherwise unconditionally sets the status to
`acknowledged` and records actor and time — the current status is never
inspected. -/
def AlertManager.acknowledge_alert (m : AlertManager) (now : Nat)
    (alert_id acknowledged_by : String) : Bool × AlertManager :=
  match alGet m.alerts alert_id with
  | none => (false, m)
  | some alert =>
      let alert' := { alert with
        status := AlertStatus.acknowledged,
        acknowledged_by := some acknowledged_by,
        acknowledged_at := some now }
      (true, { m with alerts := alSet m.alerts alert_id alert' })

/-- `AlertManager.resolve_alert(alert_id)`: false on an unknown id;
otherwise unconditionally sets the status to `resolved` and records the
time — the current status is never inspected. -/
def AlertManager.resolve_alert (m : AlertManager) (now : Nat)
    (alert_id : String) : Bool × AlertManager :=
  match alGet m.alerts alert_id with
  | none => (false, m)
  | some alert =>
      let alert' := { alert with
        status := AlertStatus.resolved,
        resolved_at := some now }
      (true, { m with alerts := alSet m.alerts alert_id alert' })

/-! ## DevAgent poll loop (`agents/devagent/app/main.py`, `run_loop`)

One iteration of the `while True` body is embedded as a step function on
the loop's mutable locals, driven by an environment input saying what the
awaited calls of that iteration produced, and emitting the observable
action of the iteration (which sleep was performed, whether the circuit
opened).  `max_failures = 5` and `circuit_reset_time = 300` are the
literals hard-coded in `run_loop`. -/

/-- The mutable locals of `run_loop`. -/
structure LoopState where
  consecutive_failures : Nat
  circuit_open : Bool
  tasks_completed : Nat
  errors_count : Nat
  deriving Repr, DecidableEq

/-- `run_loop`'s initial locals. -/
def LoopState.init : LoopState :=
  { consecutive_failures := 0, circuit_open := false,
    tasks_completed := 0, errors_count := 0 }

/-- Outcome of the awaited calls in one loop iteration:
the pause check returned true; `executor.execute_task()` returned a
result; it returned `None`; or it raised an exception. -/
inductive IterInput
  | paused
  | taskCompleted
  | noTask
  | error
  deriving Repr, DecidableEq

/-- Observable effect of one loop iteration. -/
inductive IterAction
  | sleptReset (secs : Nat)
  | sleptPaused (secs : Nat)
  | completedThenSlept (secs : Nat)
  | noTaskThenSlept (secs : Nat)
  | circuitOpened
  | backoffSlept (secs : Nat)
  deriving Repr, DecidableEq

/-- Seconds slept during the iteration (the `circuitOpened` branch hits
`continue` with no sleep at all). -/
def IterAction.sleepSeconds : IterAction → Nat
  | .sleptReset secs => secs
  | .sleptPaused secs => secs
  | .completedThenSlept secs => secs
  | .noTaskThenSlept secs => secs
  | .circuitOpened => 0
  | .backoffSlept secs => secs

/-- Whether the iteration reached `executor.execute_task()` (a task
fetch).  The circuit-open branch and the paused branch `continue` before
any fetch. -/
def IterAction.fetchAttempted : IterAction → Bool
  | .sleptReset _ => false
  | .sleptPaused _ => false
  | .completedThenSlept _ => true
  | .noTaskThenSlept _ => true
  | .circuitOpened => true
  | .backoffSlept _ => true

/-- One iteration of the `run_loop` body.  With the circuit open the input
is never consumed: the iteration sleeps `circuit_reset_time = 300`, closes
the circuit and zeroes the failure count.  On an exception the error and
failure counters grow; at `max_failures = 5` consecutive failures the
circuit opens with no sleep, otherwise the iteration sleeps
`min(60 * 2 ** min(failures - 1, 5), 300)`. -/
def loopStep (interval : Nat) (s : LoopState) (inp : IterInput) :
    LoopState × IterAction :=
  if s.circuit_open then
    ({ s with circuit_open := false, consecutive_failures := 0 },
     IterAction.sleptReset 300)
  else
    match inp with
    | .paused => (s, IterAction.sleptPaused 60)
    | .taskCompleted =>
        ({ s with tasks_completed := s.tasks_completed + 1,
                  consecutive_failures := 0 },
         IterAction.completedThenSlept interval)
    | .noTask => (s, IterAction.noTaskThenSlept interval)
    | .error =>
        let s1 := { s with errors_count := s.errors_count + 1,
                           consecutive_failures := s.consecutive_failures + 1 }
        if s1.consecutive_failures ≥ 5 then
          ({ s1 with circuit_open := true }, IterAction.circuitOpened)
        else
          (s1, IterAction.backoffSlept
                 (min (60 * 2 ^ (min (s1.consecutive_failures - 1) 5)) 300))

/-- Iterating `loopStep` over a list of per-iteration inputs, collecting
the actions in order. -/
def loopSteps (interval : Nat) (s : LoopState) :
    List IterInput → LoopState × List IterAction
  | [] => (s, [])
  | inp :: rest =>
      let r := loopStep interval s inp
      let r' := loopSteps interval r.1 rest
      (r'.1, r.2 :: r'.2)

/-! ## DevAgent executor (`agents/devagent/app/executor.py`)

The pipeline's pure computations (`_generate_plan`, `_execute_plan` and
the file synthesis helpers, `_generate_result`, the branch/commit strings
of `_create_pr`) are embedded from the source.  The awaited stage
boundaries (each stage is an awaited coroutine touching external systems:
the quality checks run subprocesses, `_create_pr` calls git, the final
status update calls the CoreHub client) may raise; the environment
injects an optional exception per stage, and the quality-check
environment supplies the externally produced pass/fail results. -/

/-- A task record as fetched from the kanban source (the fields
`_execute_single_task` reads; `task.get("type", "dev")` and
`task.get("acceptance", [])` defaults are the caller's concern, so the
fields are total here). -/
structure Task where
  id : String
  title : String
  type : String
  acceptance : List String
  deriving Repr, DecidableEq

/-- Result dict of one `CodeRunner` check, reduced to the `passed` flag —
the only field `_run_quality_checks` reads (`.get("passed", False)`);
diagnostic text fields are carried through unread. -/
structure CheckResult where
  passed : Bool
  deriving Repr, DecidableEq

/-- Externally produced results of the four `CodeRunner` checks.  The
executor's `_run_quality_checks` calls only the first three;
`run_format_check` exists on `CodeRunner` but is not called there. -/
structure QualityEnv where
  tests : CheckResult
  lint : CheckResult
  type_check : CheckResult
  format_check : CheckResult
  deriving Repr, DecidableEq

/-- The dict returned by `DevAgentExecutor._run_quality_checks`. -/
structure QualityResults where
  tests : CheckResult
  lint : CheckResult
  type_check : CheckResult
  overall : String
  deriving Repr, DecidableEq

/-- `DevAgentExecutor._run_quality_checks`: runs tests, lint and
type-check and sets `overall` to `"pass"` exactly when all three passed
(`run_format_check` is not consulted). -/
def DevAgentExecutor.run_quality_checks (env : QualityEnv) :
    QualityResults :=
  { tests := env.tests
    lint := env.lint
    type_check := env.type_check
    overall :=
      if env.tests.passed && env.lint.passed && env.type_check.passed then
        "pass"
      else
        "fail" }

/-- `DevAgentExecutor._generate_plan`: fixed step templates by task
type. -/
def DevAgentExecutor.generate_plan (task : Task) : List String :=
  if task.type = "dev" then
    ["Analyze requirements: " ++ task.title,
     "Implement solution for: " ++ String.intercalate ", " task.acceptance,
     "Create/update code files",
     "Write tests",
     "Update documentation",
     "Run quality checks"]
  else if task.type = "ops" then
    ["Analyze operational requirements: " ++ task.title,
     "Implement solution for: " ++ String.intercalate ", " task.acceptance,
     "Create/update configuration",
     "Write operational tests",
     "Update runbooks",
     "Run quality checks"]
  else
    ["Analyze requirements: " ++ task.title,
     "Implement solution for: " ++ String.intercalate ", " task.acceptance,
     "Create/update files",
     "Run quality checks"]

/-- Python `sub in s` on strings. -/
def strContains (s sub : String) : Bool :=
  decide (List.IsInfix sub.toList s.toList)

/-- `DevAgentExecutor._implement_solution`: file paths synthesized from
the task id and type. -/
def DevAgentExecutor.implement_solution (task : Task) : List String :=
  if task.type = "dev" then
    ["corehub/api/routes/" ++ task.id.toLower ++ ".py",
     "corehub/services/" ++ task.id.toLower ++ "_service.py"]
  else if task.type = "ops" then
    ["scripts/" ++ task.id.toLower ++ ".py",
     "configs/" ++ task.id.toLower ++ ".yaml"]
  else
    ["misc/" ++ task.id.toLower ++ ".py"]

/-- `DevAgentExecutor._create_tests`: the synthesized test file path. -/
def DevAgentExecutor.create_tests (task : Task) : List String :=
  ["corehub/tests/test_" ++ task.id.toLower ++ ".py"]

/-- `DevAgentExecutor._update_documentation`: the touched doc files. -/
def DevAgentExecutor.update_documentation (_task : Task) : List String :=
  ["README.md", "docs/api.md"]

/-- `DevAgentExecutor._execute_plan`: walks the plan; steps containing
"Implement solution" / "Write tests" / "Update documentation" extend the
action list with the corresponding synthesized files, all other steps are
no-ops (the `asyncio.sleep(0.1)` pacing has no observable effect). -/
def DevAgentExecutor.execute_plan (plan : List String) (task : Task) :
    List String :=
  plan.foldl
    (fun actions step =>
      if strContains step "Implement solution" then
        actions ++ DevAgentExecutor.implement_solution task
      else if strContains step "Write tests" then
        actions ++ DevAgentExecutor.create_tests task
      else if strContains step "Update documentation" then
        actions ++ DevAgentExecutor.update_documentation task
      else
        actions)
    []

/-- The PR record assembled by `_create_pr` (the generated artifact of
`git.generate_pr_file` lives in the external version-control sink). -/
structure PrInfo where
  branch : String
  commit : String
  deriving Repr, DecidableEq

/-- The branch name and commit message computed by
`DevAgentExecutor._create_pr`. -/
def DevAgentExecutor.create_pr (task : Task) (actions : List String) :
    PrInfo :=
  { branch := "feat/" ++ task.id.toLower ++ "-"
      ++ (task.title.toLower.replace " " "-")
    commit := "feat: " ++ task.title ++ "\n\n- Task ID: " ++ task.id
      ++ "\n- Files: " ++ String.intercalate ", " actions }

/-- The result dict of `_generate_result`, extended in
`_execute_single_task` with the `pr` record (execution timing is
real-clock and not modelled). -/
structure ExecResult where
  task_id : String
  task_title : String
  status : String
  plan_steps : Nat
  files_modified : Nat
  quality_checks : QualityResults
  pr : Option PrInfo
  deriving Repr, DecidableEq

/-- `DevAgentExecutor._generate_result`. -/
def DevAgentExecutor.generate_result (task : Task) (plan : List String)
    (actions : List String) (quality : QualityResults) : ExecResult :=
  { task_id := task.id
    task_title := task.title
    status := "completed"
    plan_steps := plan.length
    files_modified := actions.length
    quality_checks := quality
    pr := none }

/-- Per-stage exception injection for the awaited pipeline stages of
`_execute_single_task` (`some msg` means that stage raised). -/
structure StepFaults where
  plan : Option String
  execute : Option String
  quality : Option String
  createPr : Option String
  updateDone : Option String
  deriving Repr, DecidableEq

/-- `DevAgentExecutor._execute_single_task`: runs the pipeline inside a
try/except.  The second component records, in order, every
`client.update_task_status(task_id, status)` call issued: `"done"` inside
the try body on pipeline completion, `"blocked"` in the except handler
before the exception is re-raised. -/
def DevAgentExecutor.execute_single_task (qenv : QualityEnv)
    (faults : StepFaults) (task : Task) :
    Except String ExecResult × List (String × String) :=
  match faults.plan with
  | some e => (Except.error e, [(task.id, "blocked")])
  | none =>
    let plan := DevAgentExecutor.generate_plan task
    match faults.execute with
    | some e => (Except.error e, [(task.id, "blocked")])
    | none =>
      let actions := DevAgentExecutor.execute_plan plan task
      match faults.quality with
      | some e => (Except.error e, [(task.id, "blocked")])
      | none =>
        let quality := DevAgentExecutor.run_quality_checks qenv
        let result := DevAgentExecutor.generate_result task plan actions quality
        match faults.createPr with
        | some e => (Except.error e, [(task.id, "blocked")])
        | none =>
          let pr := DevAgentExecutor.create_pr task actions
          let result2 := { result with pr := some pr }
          match faults.updateDone with
          | some e =>
              (Except.error e, [(task.id, "done"), (task.id, "blocked")])
          | none => (Except.ok result2, [(task.id, "done")])

/-! ## Cache operation language (for the size invariant) -/

/-- The public `CacheService` operations, abstracted over their call-time
arguments, for stating invariants over arbitrary operation sequences. -/
inductive CacheOp (α : Type)
  | set (now : Nat) (key : String) (value : α) (ttl : Option Nat)
  | get (now : Nat) (key : String)
  | delete (key : String)
  | clear
  | cleanup (now : Nat)
  | invalidate (pattern : String)

/-- Apply one public operation, discarding its return value. -/
def CacheService.applyOp {α : Type} (s : CacheService α) :
    CacheOp α → CacheService α
  | .set now key value ttl => s.set now key value ttl
  | .get now key => (s.get now key).2
  | .delete key => (s.delete key).2
  | .clear => s.clear
  | .cleanup now => (s.cleanup_expired now).2
  | .invalidate pattern => (s.invalidate_pattern pattern).2

/-- Apply a sequence of public operations. -/
def CacheService.applyOps {α : Type} (s : CacheService α)
    (ops : List (CacheOp α)) : CacheService α :=
  ops.foldl CacheService.applyOp s

/-- The size-accounting invariant: the `size` statistic equals the number
of entries physically present in the store. -/
def CacheService.sizeInv {α : Type} (s : CacheService α) : Prop :=
  s.stats.size = s.cache.length

/-! ## Helper lemmas on the dict model -/

theorem alGet_alSet_self {β : Type} (l : List (String × β)) (k : String)
    (v : β) : alGet (alSet l k v) k = some v := by
  induction l with
  | nil => simp [alSet, alGet]
  | cons e rest ih =>
      obtain ⟨k', v'⟩ := e
      by_cases h : k' = k
      · simp [alSet, h, alGet]
      · simp [alSet, h, alGet, ih]

theorem alGet_alErase_self {β : Type} (l : List (String × β)) (k : String) :
    alGet (alErase l k) k = none := by
  induction l with
  | nil => rfl
  | cons e rest ih =>
      obtain ⟨k', v'⟩ := e
      by_cases h : k' = k
      · simpa [alErase, h] using ih
      · simpa [alErase, h, alGet] using ih

theorem alGet_none_forall {β : Type} (l : List (String × β)) (k : String)
    (h : alGet l k = none) : ∀ e ∈ l, e.1 ≠ k := by
  induction l with
  | nil => intro e he; cases he
  | cons e' rest ih =>
      obtain ⟨k', v'⟩ := e'
      by_cases hk : k' = k
      · simp [alGet, hk] at h
      · intro e he
        rcases List.mem_cons.mp he with rfl | hmem
        · simpa using hk
        · exact ih (by simpa [alGet, hk] using h) e hmem

theorem alErase_of_alGet_none {β : Type} (l : List (String × β))
    (k : String) (h : alGet l k = none) : alErase l k = l := by
  unfold alErase
  apply List.filter_eq_self.mpr
  intro e he
  simpa using alGet_none_forall l k h e he

theorem delete_cache_eq {α : Type} (s : CacheService α) (k : String) :
    (s.delete k).2.cache = alErase s.cache k := by
  unfold CacheService.delete
  by_cases h : alContains s.cache k = true
  · simp [h]
  · have hget : alGet s.cache k = none := by
      unfold alContains at h
      exact Option.not_isSome_iff_eq_none.mp (by simpa using h)
    simp [h, alErase_of_alGet_none _ _ hget]

theorem delete_sizeInv {α : Type} (s : CacheService α) (k : String)
    (h : s.sizeInv) : (s.delete k).2.sizeInv := by
  unfold CacheService.delete
  by_cases hc : alContains s.cache k = true
  · simp [hc, CacheService.sizeInv]
  · simpa [hc, CacheService.sizeInv] using h

theorem set_sizeInv {α : Type} (s : CacheService α) (now : Nat)
    (k : String) (v : α) (ttl : Option Nat) :
    (s.set now k v ttl).sizeInv := by
  simp [CacheService.set, CacheService.sizeInv]

theorem get_sizeInv {α : Type} (s : CacheService α) (now : Nat)
    (k : String) (h : s.sizeInv) : (s.get now k).2.sizeInv := by
  unfold CacheService.get
  cases hget : alGet s.cache k with
  | none => simpa [CacheService.sizeInv] using h
  | some entry =>
      by_cases hexp : now > entry.expires_at
      · have := delete_sizeInv s k h
        simpa [hexp, CacheService.sizeInv] using this
      · simpa [hexp, CacheService.sizeInv] using h

theorem cleanupFold_sizeInv {α : Type} (d : List String) :
    ∀ (acc : Nat) (s : CacheService α), s.sizeInv →
      (d.foldl
        (fun (acc : Nat × CacheService α) k =>
          let st1 := (acc.2.delete k).2
          (acc.1 + 1,
           { st1 with stats := { st1.stats with
               evictions := st1.stats.evictions + 1 } }))
        (acc, s)).2.sizeInv := by
  induction d with
  | nil => intro acc s h; simpa using h
  | cons k rest ih =>
      intro acc s h
      simp only [List.foldl_cons]
      exact ih _ _ (by
        have := delete_sizeInv s k h
        simpa [CacheService.sizeInv] using this)

theorem cleanup_sizeInv {α : Type} (s : CacheService α) (now : Nat)
    (h : s.sizeInv) : (s.cleanup_expired now).2.sizeInv := by
  unfold CacheService.cleanup_expired
  have := cleanupFold_sizeInv
    ((s.cache.filter (fun e => now > e.2.expires_at)).map (·.1)) 0 s h
  simpa [CacheService.sizeInv] using this

theorem invalFold_sizeInv {α : Type} (d : List String) :
    ∀ (acc : Nat) (s : CacheService α), s.sizeInv →
      (d.foldl
        (fun (acc : Nat × CacheService α) k => (acc.1 + 1, (acc.2.delete k).2))
        (acc, s)).2.sizeInv := by
  induction d with
  | nil => intro acc s h; simpa using h
  | cons k rest ih =>
      intro acc s h
      simp only [List.foldl_cons]
      exact ih _ _ (delete_sizeInv s k h)

theorem invalidate_sizeInv {α : Type} (s : CacheService α)
    (pattern : String) (h : s.sizeInv) :
    (s.invalidate_pattern pattern).2.sizeInv := by
  unfold CacheService.invalidate_pattern
  exact invalFold_sizeInv _ 0 s h

theorem applyOp_sizeInv {α : Type} (s : CacheService α) (op : CacheOp α)
    (h : s.sizeInv) : (s.applyOp op).sizeInv := by
  cases op with
  | set now key value ttl => exact set_sizeInv s now key value ttl
  | get now key => exact get_sizeInv s now key h
  | delete key => exact delete_sizeInv s key h
  | clear => simp [CacheService.applyOp, CacheService.clear, CacheService.sizeInv]
  | cleanup now => exact cleanup_sizeInv s now h
  | invalidate pattern => exact invalidate_sizeInv s pattern h

theorem applyOps_sizeInv {α : Type} (ops : List (CacheOp α)) :
    ∀ (s : CacheService α), s.sizeInv → (s.applyOps ops).sizeInv := by
  induction ops with
  | nil => intro s h; simpa [CacheService.applyOps] using h
  | cons op rest ih =>
      intro s h
      simp only [CacheService.applyOps, List.foldl_cons]
      exact ih _ (applyOp_sizeInv s op h)

/-! ## Claim theorems -/

/-- C10: after every sequence of public CacheService operations starting
from a freshly initialized service, the `current_size` reported by
`get_stats` equals the number of entries physically present in the
underlying store. -/
theorem cache_size_stat_accurate {α : Type} (now0 default_ttl : Nat)
    (ops : List (CacheOp α)) :
    ((CacheService.init α now0 default_ttl).applyOps ops).get_stats.current_size
      = ((CacheService.init α now0 default_ttl).applyOps ops).cache.length := by
  have h0 : (CacheService.init α now0 default_ttl).sizeInv := rfl
  exact applyOps_sizeInv ops _ h0

/-- C5: for TTL `t > 0`, a `get` immediately after `set` returns the value
and increments the hit counter; once the clock passes `created_at + t` the
`get` returns absent, removes the entry, and increments the eviction and
miss counters each exactly once. -/
theorem cache_set_get_ttl {α : Type} (s : CacheService α) (now : Nat)
    (k : String) (v : α) (t : Nat) (_ht : 0 < t) :
    ((s.set now k v (some t)).get now k).1 = some v ∧
    ((s.set now k v (some t)).get now k).2.stats.hits
      = (s.set now k v (some t)).stats.hits + 1 ∧
    ∀ now2, now + t < now2 →
      (((s.set now k v (some t)).get now2 k).1 = none ∧
       alGet ((s.set now k v (some t)).get now2 k).2.cache k = none ∧
       ((s.set now k v (some t)).get now2 k).2.stats.evictions
         = (s.set now k v (some t)).stats.evictions + 1 ∧
       ((s.set now k v (some t)).get now2 k).2.stats.misses
         = (s.set now k v (some t)).stats.misses + 1) := by
  have hget : alGet (s.set now k v (some t)).cache k
      = some { value := v, expires_at := now + t, created_at := now, ttl := t } := by
    simp [CacheService.set]
    exact alGet_alSet_self _ _ _
  have hcontains : alContains (s.set now k v (some t)).cache k = true := by
    simp [alContains, hget]
  refine ⟨?_, ?_, ?_⟩
  · simp [CacheService.get, hget]
  · simp [CacheService.get, hget]
  · intro now2 hlt
    have hexp : now2 > now + t := hlt
    have hdel := delete_cache_eq (s.set now k v (some t)) k
    constructor
    · simp [CacheService.get, hget, hexp]
    constructor
    · simp only [CacheService.get, hget]
      simp only [hexp, if_pos]
      simpa [hdel] using alGet_alErase_self (s.set now k v (some t)).cache k
    constructor
    · simp [CacheService.get, hget, hexp, CacheService.delete, hcontains]
    · simp [CacheService.get, hget, hexp, CacheService.delete, hcontains]

/-- C5 witness: concrete instantiation with `t = 5` and expiry observed at
clock 6. -/
theorem cache_set_get_ttl_witness :
    (((CacheService.init Nat 0).set 0 "k" 42 (some 5)).get 0 "k").1 = some 42 ∧
    (((CacheService.init Nat 0).set 0 "k" 42 (some 5)).get 6 "k").1 = none ∧
    (((CacheService.init Nat 0).set 0 "k" 42 (some 5)).get 6 "k").2.stats.evictions = 1 := by
  have h := cache_set_get_ttl (CacheService.init Nat 0) 0 "k" 42 5 (by decide)
  refine ⟨h.1, ?_, ?_⟩
  · exact (h.2.2 6 (by decide)).1
  · have := (h.2.2 6 (by decide)).2.2.1
    simpa using this

/-! ## invalidate_pattern: fold characterization -/

theorem invalFold_count {α : Type} (d : List String) :
    ∀ (acc : Nat) (s : CacheService α),
      (d.foldl
        (fun (acc : Nat × CacheService α) k => (acc.1 + 1, (acc.2.delete k).2))
        (acc, s)).1 = acc + d.length := by
  induction d with
  | nil => intro acc s; simp
  | cons k rest ih =>
      intro acc s
      simp only [List.foldl_cons, List.length_cons]
      rw [ih]
      omega

theorem invalFold_cache {α : Type} (d : List String) :
    ∀ (acc : Nat) (s : CacheService α),
      (d.foldl
        (fun (acc : Nat × CacheService α) k => (acc.1 + 1, (acc.2.delete k).2))
        (acc, s)).2.cache
      = s.cache.filter (fun e => !(d.contains e.1)) := by
  induction d with
  | nil => intro acc s; simp
  | cons k rest ih =>
      intro acc s
      simp only [List.foldl_cons]
      rw [ih]
      rw [delete_cache_eq]
      unfold alErase
      rw [List.filter_filter]
      apply List.filter_congr
      intro e _
      by_cases hk : e.1 = k
      · simp [hk]
      · simp [hk, bne_iff_ne, Ne, hk]

/-- C8 (corrected): `invalidate_pattern` uses `re.match`, which anchors at
the start of the key: it deletes exactly the keys the pattern matches as
an initial segment and returns their number; keys where the pattern only
occurs strictly inside are untouched. -/
theorem invalidate_pattern_match_at_start {α : Type} (s : CacheService α)
    (pattern : String) :
    (s.invalidate_pattern pattern).1
      = ((alKeys s.cache).filter (fun k => reMatchLit pattern k)).length ∧
    (s.invalidate_pattern pattern).2.cache
      = s.cache.filter (fun e => !(reMatchLit pattern e.1)) := by
  unfold CacheService.invalidate_pattern
  constructor
  · rw [invalFold_count]
    simp
  · rw [invalFold_cache]
    apply List.filter_congr
    intro e he
    by_cases hp : reMatchLit pattern e.1 = true
    · have hkeys : e.1 ∈ alKeys s.cache := by
        unfold alKeys
        exact List.mem_map_of_mem _ he
      have hmem : e.1 ∈ (alKeys s.cache).filter (fun k => reMatchLit pattern k) :=
        List.mem_filter.mpr ⟨hkeys, hp⟩
      have : ((alKeys s.cache).filter (fun k => reMatchLit pattern k)).contains e.1 = true := by
        simpa [List.contains, List.elem_iff] using hmem
      rw [this, hp]
    · have hb : reMatchLit pattern e.1 = false := by
        simpa using hp
      have : ((alKeys s.cache).filter (fun k => reMatchLit pattern k)).contains e.1 = false := by
        by_contra hcon
        have hmem : e.1 ∈ (alKeys s.cache).filter (fun k => reMatchLit pattern k) := by
          have := Bool.not_eq_false _ |>.mp hcon
          simpa [List.contains, List.elem_iff] using this
        have := (List.mem_filter.mp hmem).2
        rw [hb] at this
        cases this
      rw [this, hb]

/-- C8 counterexample: with the single stored key `"ab"` and pattern
`"b"`, the pattern occurs inside the key (`re.search` would find it) but
`invalidate_pattern` deletes nothing and returns 0, contrary to the
claim that any partial match anywhere is deleted. -/
theorem invalidate_pattern_anywhere_cex :
    reSearchLit "b" "ab" = true ∧
    (((CacheService.init Nat 0).set 0 "ab" 1 none).invalidate_pattern "b").1 = 0 ∧
    alContains ((((CacheService.init Nat 0).set 0 "ab" 1 none).invalidate_pattern "b")).2.cache "ab" = true := by
  decide

/-! ## The cached decorator: C9 -/

theorem cachedCall_hit {γ β : Type} (f : γ → Option β)
    (keyOf : γ → String) (ttl : Option Nat) (now2 : Nat)
    (st2 : CachedState β) (x : γ) (b : β) (entry : CacheEntry (Option β))
    (hget : alGet st2.cache.cache (keyOf x) = some entry)
    (hval : entry.value = some b)
    (hnexp : ¬ (now2 > entry.expires_at)) :
    (cachedCall f keyOf ttl now2 st2 x).1 = some b ∧
    (cachedCall f keyOf ttl now2 st2 x).2.computeCount
      = st2.computeCount := by
  have hlook : (st2.cache.get now2 (keyOf x)).1 = some (some b) := by
    simp [CacheService.get, hget, hnexp, hval]
  constructor
  · simp [cachedCall, hlook]
  · simp [cachedCall, hlook]

/-- C9 (corrected): a second call within the TTL returns the stored
result without recomputing the wrapped function, provided the first
computed result was not `None`; the `if result is not None` guard makes a
stored `None` indistinguishable from a miss. -/
theorem cached_non_none_within_ttl {γ β : Type} (f : γ → Option β)
    (keyOf : γ → String) (ttl now : Nat) (st : CachedState β) (x : γ)
    (b : β) (hmiss : alGet st.cache.cache (keyOf x) = none)
    (hf : f x = some b) (now2 : Nat) (hnow : now2 ≤ now + ttl) :
    (cachedCall f keyOf (some ttl) now st x).1 = some b ∧
    (cachedCall f keyOf (some ttl) now2
        (cachedCall f keyOf (some ttl) now st x).2 x).1 = some b ∧
    (cachedCall f keyOf (some ttl) now2
        (cachedCall f keyOf (some ttl) now st x).2 x).2.computeCount
      = (cachedCall f keyOf (some ttl) now st x).2.computeCount := by
  have hget1 : (st.cache.get now (keyOf x)).1 = none := by
    simp [CacheService.get, hmiss]
  have hr1 : cachedCall f keyOf (some ttl) now st x
      = (some b,
         { cache := (st.cache.get now (keyOf x)).2.set now (keyOf x) (some b) (some ttl),
           computeCount := st.computeCount + 1 }) := by
    simp [cachedCall, hget1, hf]
  have hcache1 : (st.cache.get now (keyOf x)).2.cache = st.cache.cache := by
    simp [CacheService.get, hmiss]
  have hget2 : alGet ((st.cache.get now (keyOf x)).2.set now (keyOf x)
      (some b) (some ttl)).cache (keyOf x)
      = some { value := some b, expires_at := now + ttl,
               created_at := now, ttl := ttl } := by
    simp only [CacheService.set, Option.getD]
    exact alGet_alSet_self _ _ _
  have hhit := cachedCall_hit f keyOf (some ttl) now2
    { cache := (st.cache.get now (keyOf x)).2.set now (keyOf x) (some b) (some ttl),
      computeCount := st.computeCount + 1 } x b
    { value := some b, expires_at := now + ttl, created_at := now, ttl := ttl }
    hget2 rfl (by simpa using Nat.not_lt.mpr hnow)
  refine ⟨by rw [hr1], ?_, ?_⟩
  · rw [hr1]
    exact hhit.1
  · rw [hr1]
    exact hhit.2

/-- C9 witness: concrete non-`None` result cached across two calls at
clocks 0 and 5 with TTL 10. -/
theorem cached_non_none_within_ttl_witness :
    (cachedCall (fun _ : Unit => some 7) (fun _ => "f:()") (some 10) 0
        { cache := CacheService.init (Option Nat) 0, computeCount := 0 } ()).1 = some 7 ∧
    (cachedCall (fun _ : Unit => some 7) (fun _ => "f:()") (some 10) 5
        (cachedCall (fun _ : Unit => some 7) (fun _ => "f:()") (some 10) 0
          { cache := CacheService.init (Option Nat) 0, computeCount := 0 } ()).2 ()).2.computeCount
      = 1 := by
  have h := cached_non_none_within_ttl (fun _ : Unit => some 7)
    (fun _ => "f:()") 10 0
    { cache := CacheService.init (Option Nat) 0, computeCount := 0 } ()
    7 rfl rfl 5 (by decide)
  refine ⟨h.1, ?_⟩
  rw [h.2.2]
  rfl

/-- C9 counterexample: a wrapped function returning `None` is recomputed
by the second identical call within the TTL (compute count reaches 2),
because the wrapper's `is not None` guard treats the stored `None` as a
miss. -/
theorem cached_none_result_recomputed_cex :
    (cachedCall (fun _ : Unit => (none : Option Nat)) (fun _ => "f:()")
        none 0
        { cache := CacheService.init (Option Nat) 0, computeCount := 0 } ()).2.computeCount = 1 ∧
    (cachedCall (fun _ : Unit => (none : Option Nat)) (fun _ => "f:()")
        none 0
        (cachedCall (fun _ : Unit => (none : Option Nat)) (fun _ => "f:()")
          none 0
          { cache := CacheService.init (Option Nat) 0, computeCount := 0 } ()).2 ()).2.computeCount = 2 := by
  constructor <;> rfl

/-! ## AlertManager: C1 and C2 -/

/-- C1 (corrected): when the alert type is in cooldown, `create_alert`
returns a fresh Alert object but records nothing — the alert map, the
history and the dispatch log are all left unchanged; only outside
cooldown is the alert stored, appended to history and dispatched. -/
theorem create_alert_cooldown_skips_recording (m : AlertManager)
    (now : Nat) (ty : String) (sev : AlertSeverity)
    (title msg src : String) :
    ((m.is_in_cooldown now ty = true →
        (m.create_alert now ty sev title msg src).2 = m) ∧
     (m.is_in_cooldown now ty = false →
        (alGet (m.create_alert now ty sev title msg src).2.alerts
            (m.create_alert now ty sev title msg src).1.id
          = some (m.create_alert now ty sev title msg src).1 ∧
         (m.create_alert now ty sev title msg src).2.alert_history
          = m.alert_history ++ [(m.create_alert now ty sev title msg src).1] ∧
         (m.create_alert now ty sev title msg src).2.dispatched
          = m.dispatched ++ [(m.create_alert now ty sev title msg src).1.id]))) := by
  constructor
  · intro h
    simp [AlertManager.create_alert, h]
  · intro h
    refine ⟨?_, ?_, ?_⟩
    · simp [AlertManager.create_alert, h, AlertManager.set_cooldown]
      exact alGet_alSet_self _ _ _
    · simp [AlertManager.create_alert, h, AlertManager.set_cooldown]
    · simp [AlertManager.create_alert, h, AlertManager.set_cooldown]

/-- C1 witness: both branches at concrete inputs — a second call 60s
after a first (cooldown ends at 300s) leaves the manager unchanged, and
the first call from a fresh manager records and dispatches its alert. -/
theorem create_alert_cooldown_skips_recording_witness :
    (((AlertManager.init.create_alert 0 "t" AlertSeverity.warning "T" "M" "S").2.create_alert
        60 "t" AlertSeverity.warning "T" "M" "S").2
      = (AlertManager.init.create_alert 0 "t" AlertSeverity.warning "T" "M" "S").2) ∧
    (AlertManager.init.create_alert 0 "t" AlertSeverity.warning "T" "M" "S").2.alert_history
      = [] ++ [(AlertManager.init.create_alert 0 "t" AlertSeverity.warning "T" "M" "S").1] := by
  constructor
  · exact (create_alert_cooldown_skips_recording
      (AlertManager.init.create_alert 0 "t" AlertSeverity.warning "T" "M" "S").2
      60 "t" AlertSeverity.warning "T" "M" "S").1 (by decide)
  · exact ((create_alert_cooldown_skips_recording
      AlertManager.init 0 "t" AlertSeverity.warning "T" "M" "S").2 (by decide)).2.1

/-- C1 counterexample: two `create_alert` calls for type `"t"` at clocks
0 and 60 (cooldown window 300s): the second call's Alert is absent from
the alert map and the history still holds a single entry, contradicting
the claim that the record is always stored and appended. -/
theorem create_alert_cooldown_claim_cex :
    (alGet (((AlertManager.init.create_alert 0 "t" AlertSeverity.warning "T" "M" "S").2.create_alert
          60 "t" AlertSeverity.warning "T" "M" "S").2).alerts
        (((AlertManager.init.create_alert 0 "t" AlertSeverity.warning "T" "M" "S").2.create_alert
          60 "t" AlertSeverity.warning "T" "M" "S").1).id = none) ∧
    (((AlertManager.init.create_alert 0 "t" AlertSeverity.warning "T" "M" "S").2.create_alert
        60 "t" AlertSeverity.warning "T" "M" "S").2).alert_history.length = 1 := by
  decide

/-- C2 (corrected): `acknowledge_alert` and `resolve_alert` never inspect
the current status: on any known id they unconditionally overwrite the
status with `acknowledged` resp. `resolved`, so an already-resolved alert
is moved back to `acknowledged` by a later acknowledge call. -/
theorem alert_status_transitions_unguarded (m : AlertManager) (now : Nat)
    (alert_id actor : String) (a : Alert)
    (h : alGet m.alerts alert_id = some a) :
    ((m.acknowledge_alert now alert_id actor).1 = true ∧
     alGet (m.acknowledge_alert now alert_id actor).2.alerts alert_id
       = some { a with status := AlertStatus.acknowledged,
                       acknowledged_by := some actor,
                       acknowledged_at := some now }) ∧
    ((m.resolve_alert now alert_id).1 = true ∧
     alGet (m.resolve_alert now alert_id).2.alerts alert_id
       = some { a with status := AlertStatus.resolved,
                       resolved_at := some now }) := by
  refine ⟨⟨?_, ?_⟩, ?_, ?_⟩
  · simp [AlertManager.acknowledge_alert, h]
  · simp [AlertManager.acknowledge_alert, h]
    exact alGet_alSet_self _ _ _
  · simp [AlertManager.resolve_alert, h]
  · simp [AlertManager.resolve_alert, h]
    exact alGet_alSet_self _ _ _

/-- C2 witness: acknowledging an alert that is already `resolved`
succeeds and overwrites the status with `acknowledged` — the status does
leave `resolved`. -/
theorem alert_status_transitions_unguarded_witness :
    ((((AlertManager.init.create_alert 0 "t" AlertSeverity.warning "T" "M" "S").2.resolve_alert
        1 "t_0").2.acknowledge_alert 2 "t_0" "bob").1 = true ∧
     alGet (((AlertManager.init.create_alert 0 "t" AlertSeverity.warning "T" "M" "S").2.resolve_alert
        1 "t_0").2.acknowledge_alert 2 "t_0" "bob").2.alerts "t_0"
       = some { id := "t_0", type := "t", severity := AlertSeverity.warning,
                status := AlertStatus.acknowledged, title := "T",
                message := "M", timestamp := 0, source := "S",
                metadata := [], acknowledged_by := some "bob",
                acknowledged_at := some 2, resolved_at := some 1 }) := by
  exact (alert_status_transitions_unguarded
    ((AlertManager.init.create_alert 0 "t" AlertSeverity.warning "T" "M" "S").2.resolve_alert
      1 "t_0").2
    2 "t_0" "bob"
    { id := "t_0", type := "t", severity := AlertSeverity.warning,
      status := AlertStatus.resolved, title := "T", message := "M",
      timestamp := 0, source := "S", metadata := [],
      acknowledged_by := none, acknowledged_at := none,
      resolved_at := some 1 }
    (by decide)).1

/-- C2 counterexample: create an alert, resolve it, then acknowledge it:
the final status is `acknowledged`, not `resolved` — a sequence of
acknowledge/resolve calls does change the status of a resolved alert. -/
theorem alert_resolved_status_reverts_cex :
    ((alGet ((((AlertManager.init.create_alert 0 "t" AlertSeverity.warning "T" "M" "S").2.resolve_alert
          1 "t_0").2.acknowledge_alert 2 "t_0" "bob").2).alerts "t_0").map
        (fun a => a.status) = some AlertStatus.acknowledged) ∧
    AlertStatus.acknowledged ≠ AlertStatus.resolved := by
  decide

/-! ## DevAgent poll loop: C3 and C4 -/

/-- C3: from a closed circuit with zero failures, five consecutive
exceptions yield four backoff sleeps and then open the circuit with no
sleep; the very next iteration sleeps the 300s reset cooldown with no
task fetch, closes the circuit and resets the failure count. -/
theorem circuit_breaker_open_close (interval : Nat) (s : LoopState)
    (inp : IterInput) (hopen : s.circuit_open = false)
    (hcf : s.consecutive_failures = 0) :
    (loopSteps interval s
        [IterInput.error, IterInput.error, IterInput.error,
         IterInput.error, IterInput.error, inp]).2
      = [IterAction.backoffSlept 60, IterAction.backoffSlept 120,
         IterAction.backoffSlept 240, IterAction.backoffSlept 300,
         IterAction.circuitOpened, IterAction.sleptReset 300] ∧
    IterAction.sleepSeconds IterAction.circuitOpened = 0 ∧
    IterAction.fetchAttempted (IterAction.sleptReset 300) = false ∧
    (loopSteps interval s
        [IterInput.error, IterInput.error, IterInput.error,
         IterInput.error, IterInput.error, inp]).1.circuit_open = false ∧
    (loopSteps interval s
        [IterInput.error, IterInput.error, IterInput.error,
         IterInput.error, IterInput.error, inp]).1.consecutive_failures = 0 := by
  obtain ⟨cf, co, tc, ec⟩ := s
  simp only at hopen hcf
  subst hopen hcf
  refine ⟨?_, rfl, rfl, ?_, ?_⟩ <;>
    simp [loopSteps, loopStep]

/-- C3 witness: the trace from the loop's initial state with a trailing
`noTask` input. -/
theorem circuit_breaker_open_close_witness :
    (loopSteps 300 LoopState.init
        [IterInput.error, IterInput.error, IterInput.error,
         IterInput.error, IterInput.error, IterInput.noTask]).2
      = [IterAction.backoffSlept 60, IterAction.backoffSlept 120,
         IterAction.backoffSlept 240, IterAction.backoffSlept 300,
         IterAction.circuitOpened, IterAction.sleptReset 300] := by
  exact (circuit_breaker_open_close 300 LoopState.init IterInput.noTask
    rfl rfl).1

/-- C4 (corrected): with a closed circuit, the backoff slept after the
n-th consecutive failure equals `min(60 * 2^(n-1), 300)` only for
n = 1..4 (60, 120, 240, 300); the 5th consecutive failure opens the
circuit and performs no backoff sleep at all. -/
theorem backoff_sequence_amended (interval : Nat) (s : LoopState)
    (n : Nat) (hopen : s.circuit_open = false) :
    (1 ≤ n → n ≤ 4 → s.consecutive_failures = n - 1 →
      (loopStep interval s IterInput.error).2
        = IterAction.backoffSlept (min (60 * 2 ^ (n - 1)) 300)) ∧
    (s.consecutive_failures = 4 →
      (loopStep interval s IterInput.error).2 = IterAction.circuitOpened) := by
  obtain ⟨cf, co, tc, ec⟩ := s
  simp only at hopen
  subst hopen
  constructor
  · intro h1 h4 hcf
    simp only at hcf
    subst hcf
    interval_cases n <;> simp [loopStep]
  · intro hcf
    simp only at hcf
    subst hcf
    simp [loopStep]

/-- C4 witness: the formula branch at n = 2 (backoff 120s) and the
opening branch at the 5th failure. -/
theorem backoff_sequence_amended_witness :
    (loopStep 300 { consecutive_failures := 1, circuit_open := false,
                    tasks_completed := 0, errors_count := 0 }
        IterInput.error).2
      = IterAction.backoffSlept (min (60 * 2 ^ (2 - 1)) 300) ∧
    (loopStep 300 { consecutive_failures := 4, circuit_open := false,
                    tasks_completed := 0, errors_count := 0 }
        IterInput.error).2
      = IterAction.circuitOpened := by
  constructor
  · exact (backoff_sequence_amended 300 _ 2 rfl).1 (by decide) (by decide) rfl
  · exact (backoff_sequence_amended 300 _ 2 rfl).2 rfl

/-- C4 counterexample: feeding five consecutive errors from the loop's
initial state, the action after the 5th failure is `circuitOpened` — not
a 300s backoff sleep: the claimed fifth delay of 300s never happens (the
iteration sleeps 0 seconds). -/
theorem backoff_fifth_failure_cex :
    ((loopSteps 300 LoopState.init
        [IterInput.error, IterInput.error, IterInput.error,
         IterInput.error, IterInput.error]).2.getLast?
      = some IterAction.circuitOpened) ∧
    IterAction.circuitOpened ≠ IterAction.backoffSlept 300 ∧
    IterAction.sleepSeconds IterAction.circuitOpened = 0 := by
  decide

/-! ## DevAgent executor: C6 and C7 -/

/-- C6 (corrected): the pipeline's `quality_checks.overall` is `"pass"`
exactly when tests, lint and type-check all passed — the AND of those
three; the format check is not part of the conjunction (for any value of
`format_check` in the environment). -/
theorem quality_overall_and_of_three (qenv : QualityEnv) :
    (DevAgentExecutor.run_quality_checks qenv).overall = "pass" ↔
      (qenv.tests.passed = true ∧ qenv.lint.passed = true ∧
       qenv.type_check.passed = true) := by
  obtain ⟨⟨t⟩, ⟨l⟩, ⟨ty⟩, ⟨fc⟩⟩ := qenv
  cases t <;> cases l <;> cases ty <;>
    simp [DevAgentExecutor.run_quality_checks]

/-- C6 counterexample: tests, lint and type-check pass while the format
check fails: the AND of the four checks is false, yet `overall` is
`"pass"` — `overall` is not the conjunction of four checks. -/
theorem quality_overall_four_checks_cex :
    (DevAgentExecutor.run_quality_checks
        { tests := { passed := true }, lint := { passed := true },
          type_check := { passed := true },
          format_check := { passed := false } }).overall = "pass" ∧
    ({ tests := { passed := true }, lint := { passed := true },
       type_check := { passed := true },
       format_check := { passed := false } : QualityEnv }.tests.passed &&
     { tests := { passed := true }, lint := { passed := true },
       type_check := { passed := true },
       format_check := { passed := false } : QualityEnv }.lint.passed &&
     { tests := { passed := true }, lint := { passed := true },
       type_check := { passed := true },
       format_check := { passed := false } : QualityEnv }.type_check.passed &&
     { tests := { passed := true }, lint := { passed := true },
       type_check := { passed := true },
       format_check := { passed := false } : QualityEnv }.format_check.passed)
      = false := by
  decide

/-- C7: whatever stage of the pipeline raises, `_execute_single_task`
issues a status update for the task before the error propagates: on
success the recorded updates end with "done", and on any raised exception
they end with "blocked" (issued in the except handler before the
re-raise). -/
theorem executor_status_done_or_blocked (qenv : QualityEnv)
    (faults : StepFaults) (task : Task) :
    (match (DevAgentExecutor.execute_single_task qenv faults task).1 with
     | Except.ok _ =>
         (DevAgentExecutor.execute_single_task qenv faults task).2
           = [(task.id, "done")]
     | Except.error _ =>
         (DevAgentExecutor.execute_single_task qenv faults task).2.getLast?
           = some (task.id, "blocked")) := by
  obtain ⟨fp, fe, fq, fc, fu⟩ := faults
  cases fp <;> cases fe <;> cases fq <;> cases fc <;> cases fu <;>
    simp [DevAgentExecutor.execute_single_task]

end KarlAI
